import Mathlib

/-!
Verification development for the eRPC endpoint core (src/rpc_impl/rpc.cc).

The file shallow-embeds the methods of the templated class Rpc<Transport_>:
construction and its validation/unwind logic, destruction order, session
burial, the session-pointer predicates, the session-management drain,
sequence-number generation, and the datapath stubs.

Pointers are modelled as Option-wrapped references (Nat identifiers for
sessions), exceptions as Except values, C assert failures as a Fatal error
value, and side effects on resources as explicit event traces.
-/

namespace ERpc

/-- Role tag of a session (Session::Role in the source). -/
inductive Role
  | kClient
  | kServer
deriving DecidableEq, Repr

/-- Role-specific identity block of a session: remote hostname, remote
application-thread id, and the session number indexing the owning table. -/
structure SessionEndpoint where
  hostname : String
  app_tid : Nat
  session_num : Nat
deriving DecidableEq, Repr

/-- A session object (the pointee of a Session*). The in_flight flag models
the is_in_flight query used by bury_session; is_in_flight is declared in a
header outside the embedded translation unit.

Modelled from the spec: the liveness flag "in-flight" (client role only)
meaning an unacknowledged outstanding request exists. -/
structure Session where
  role : Role
  client : SessionEndpoint
  server : SessionEndpoint
  in_flight : Bool
deriving DecidableEq, Repr

/-- Modelled from the spec: is_in_flight reads the in-flight liveness flag
of a (client-role) session; its definition lives in a header outside the
embedded translation unit. -/
def is_in_flight (s : Session) : Bool :=
  s.in_flight

/-- Kinds of session-management packets (SessionMgmtPktType). -/
inductive SessionMgmtPktType
  | kConnectReq
  | kConnectResp
  | kDisconnectReq
  | kDisconnectResp
deriving DecidableEq, Repr

/-- Identity carried inside a session-management packet (hostname and
application-thread id of the client or server block). -/
structure PktIdentity where
  hostname : String
  app_tid : Nat
deriving DecidableEq, Repr

/-- A session-management packet: a kind plus a client and a server identity
block (SessionMgmtPkt). -/
structure SessionMgmtPkt where
  pkt_type : SessionMgmtPktType
  client : PktIdentity
  server : PktIdentity
deriving DecidableEq, Repr

/-- Modelled from the spec: session_mgmt_is_pkt_type_req is declared in a
header outside the embedded translation unit; a packet is a request when its
kind is ConnectReq or DisconnectReq, a response otherwise. -/
def session_mgmt_is_pkt_type_req : SessionMgmtPktType → Bool
  | .kConnectReq => true
  | .kDisconnectReq => true
  | .kConnectResp => false
  | .kDisconnectResp => false

/-- The per-endpoint hook registered with the Nexus: application-thread id,
pending-event counter, and the ordered queue of pending packets
(SessionMgmtHook; the mutex serializing access is not modelled). -/
structure SMHook where
  app_tid : Nat
  session_mgmt_ev_counter : Nat
  session_mgmt_pkt_list : List SessionMgmtPkt
deriving DecidableEq, Repr

/-- The shared directory (Nexus): its hostname and the application-thread
ids of the hooks registered with it.

Modelled from the spec (the Nexus code is outside the embedded translation
unit): the directory is a registry mapping application-thread identities to
endpoints. -/
structure Nexus where
  hostname : String
  registered : List Nat
deriving DecidableEq, Repr

/-- Modelled from the spec: app_tid_exists asks the directory whether an
application-thread id is already registered. -/
def Nexus.app_tid_exists (nx : Nexus) (tid : Nat) : Bool :=
  nx.registered.contains tid

/-- Modelled from the spec: register_hook records the hook (keyed by its
application-thread id) in the directory, enabling inbound routing. -/
def Nexus.register_hook (nx : Nexus) (tid : Nat) : Nexus :=
  { nx with registered := nx.registered ++ [tid] }

/-- The state of a constructed Rpc endpoint that the embedded methods touch:
the directory hostname it was built against, its application-thread id, the
session table (session_vec, a sequence of nullable Session* slots, a slot
holding a session reference), the heap resolving a session reference to the
session object, and the session-management hook. -/
structure RpcState where
  hostname : String
  app_tid : Nat
  session_vec : List (Option Nat)
  heap : Nat → Session
  sm_hook : SMHook

/-- Unrecoverable failures: a C assert firing, or vector::at out of range. -/
inductive Fatal
  | assert_failure (msg : String)
  | self_addressed (p : SessionMgmtPkt)
  | out_of_range
deriving DecidableEq, Repr

/-- Exceptions thrown by the Rpc constructor. -/
inductive RpcError
  | runtimeError (msg : String)
  | invalidArgument (msg : String)
deriving DecidableEq, Repr

/-- Resource-lifecycle events emitted during construction. -/
inductive ConsEvent
  | createTransport
  | createAlloc
  | destroyAlloc
  | destroyTransport
  | registerHook
deriving DecidableEq, Repr

/-- Constants declared in rpc.h, outside the embedded translation unit; the
embedding is parametric in their values. -/
structure RpcConstants where
  kInvalidAppTid : Nat
  kMaxPhyPorts : Nat
  kMaxNumaNodes : Nat
deriving DecidableEq, Repr

/-- The environment the constructor runs in: the calling process uid
(getuid result), the Nexus* argument, the scalar arguments, and the behavior
of the transport post-allocator initialization step
(init_hugepage_structures): none means it returns normally, some msg means
it throws a runtime_error with that message. -/
structure ConsEnv where
  uid : Nat
  nexus : Option Nexus
  app_tid : Nat
  phy_port : Nat
  numa_node : Nat
  init_hugepage_result : Option String
deriving DecidableEq, Repr

/-- A default-initialized session object, used as the heap value for
references no slot points to. -/
def defaultSession : Session :=
  { role := Role.kClient
    client := { hostname := "", app_tid := 0, session_num := 0 }
    server := { hostname := "", app_tid := 0, session_num := 0 }
    in_flight := false }

/-- The Rpc constructor (Rpc<Transport_>::Rpc): validation checks in source
order, then transport creation, allocator creation, the post-allocator
transport initialization with its unwind on failure, and hook registration.
Returns the thrown exception or the constructed state together with the
updated directory, paired with the trace of resource-lifecycle events. -/
def rpcConstruct (cst : RpcConstants) (env : ConsEnv) :
    Except RpcError (RpcState × Nexus) × List ConsEvent :=
  if env.uid ≠ 0 then
    (.error (.runtimeError "eRPC Rpc: You need to be root to use eRPC"), [])
  else
    match env.nexus with
    | none => (.error (.invalidArgument "eRPC Rpc: Invalid nexus"), [])
    | some nx =>
      if env.app_tid = cst.kInvalidAppTid ∨ nx.app_tid_exists env.app_tid then
        (.error (.invalidArgument "eRPC Rpc: Invalid app_tid"), [])
      else if cst.kMaxPhyPorts ≤ env.phy_port then
        (.error (.invalidArgument "eRPC Rpc: Invalid physical port"), [])
      else if cst.kMaxNumaNodes ≤ env.numa_node then
        (.error (.invalidArgument "eRPC Rpc: Invalid NUMA node"), [])
      else
        match env.init_hugepage_result with
        | some msg =>
          (.error (.runtimeError msg),
           [ConsEvent.createTransport, ConsEvent.createAlloc,
            ConsEvent.destroyAlloc])
        | none =>
          (.ok
            ({ hostname := nx.hostname
               app_tid := env.app_tid
               session_vec := []
               heap := fun _ => defaultSession
               sm_hook :=
                 { app_tid := env.app_tid
                   session_mgmt_ev_counter := 0
                   session_mgmt_pkt_list := [] } },
             nx.register_hook env.app_tid),
           [ConsEvent.createTransport, ConsEvent.createAlloc,
            ConsEvent.registerHook])

/-- A construction trace leaks no resource when every created transport and
every created allocator is matched by a destruction. -/
def consTraceBalanced (tr : List ConsEvent) : Prop :=
  tr.count ConsEvent.createTransport = tr.count ConsEvent.destroyTransport ∧
  tr.count ConsEvent.createAlloc = tr.count ConsEvent.destroyAlloc

/-- Resource-lifecycle events emitted during destruction. -/
inductive DtorEvent
  | destroyAlloc
  | destroyTransport
  | freeSession (r : Nat)
deriving DecidableEq, Repr

/-- The Rpc destructor (Rpc<Transport_>::~Rpc) as the trace of events it
performs: delete huge_alloc, then delete transport, then the loop over
session_vec whose body on a non-empty slot is only _unused(session) — a
no-operation that frees nothing. -/
def rpcDestruct (st : RpcState) : List DtorEvent :=
  [DtorEvent.destroyAlloc, DtorEvent.destroyTransport] ++
    st.session_vec.foldl
      (fun acc s =>
        match s with
        | some _ => acc
        | none => acc)
      []

/-- Following the words of the spec, for comparison with rpcDestruct:
destroy the allocator, then the transport, then release (free) every
non-empty session-table slot. -/
def rpcDestructSpec (st : RpcState) : List DtorEvent :=
  [DtorEvent.destroyAlloc, DtorEvent.destroyTransport] ++
    st.session_vec.filterMap (fun s => s.map DtorEvent.freeSession)

/-- Modelled from the spec: kStartSeqMask is declared in rpc.h outside the
embedded translation unit; it is a fixed low-bit mask. -/
def kStartSeqMask : Nat :=
  2 ^ 48 - 1

/-- generate_start_seq: draw a 64-bit value from the private random source
(the draw is the argument) and mask it with kStartSeqMask. -/
def generate_start_seq (rand : Nat) : Nat :=
  rand &&& kStartSeqMask

/-- is_session_ptr_client: false for a null pointer, false when the pointer
occupies no slot of session_vec (std::find), false when the role is not
kClient, true otherwise. -/
def is_session_ptr_client (st : RpcState) (session : Option Nat) : Bool :=
  match session with
  | none => false
  | some r =>
    if ¬ st.session_vec.contains (some r) then false
    else if (st.heap r).role ≠ Role.kClient then false
    else true

/-- is_session_ptr_server: false for a null pointer, false when the pointer
occupies no slot of session_vec (std::find), false when the role is not
kServer, true otherwise. -/
def is_session_ptr_server (st : RpcState) (session : Option Nat) : Bool :=
  match session with
  | none => false
  | some r =>
    if ¬ st.session_vec.contains (some r) then false
    else if (st.heap r).role ≠ Role.kServer then false
    else true

/-- bury_session: asserts the pointer is non-null; for a client-role session
asserts is_session_ptr_client and not in-flight and takes the client block
session number, for a server-role session asserts is_session_ptr_server and
takes the server block session number; then clears that table slot
(session_vec.at(session_num) = nullptr, out of range throwing) and deletes
the session object. -/
def bury_session (st : RpcState) (session : Option Nat) :
    Except Fatal RpcState :=
  match session with
  | none => .error (.assert_failure "session != nullptr")
  | some r =>
    match (st.heap r).role with
    | Role.kClient =>
      if ¬ is_session_ptr_client st (some r) then
        .error (.assert_failure "is_session_ptr_client(session)")
      else if is_in_flight (st.heap r) then
        .error (.assert_failure "!is_in_flight(session)")
      else if (st.heap r).client.session_num < st.session_vec.length then
        .ok { st with
              session_vec :=
                st.session_vec.set (st.heap r).client.session_num none }
      else .error .out_of_range
    | Role.kServer =>
      if ¬ is_session_ptr_server st (some r) then
        .error (.assert_failure "is_session_ptr_server(session)")
      else if (st.heap r).server.session_num < st.session_vec.length then
        .ok { st with
              session_vec :=
                st.session_vec.set (st.heap r).server.session_num none }
      else .error .out_of_range

/-- The four per-kind session-management handlers the drain dispatches to.
They are defined in other translation units; the embedding is parametric in
them (σ is the state they act on). -/
structure Handlers (σ : Type) where
  handle_session_connect_req : SessionMgmtPkt → σ → σ
  handle_session_connect_resp : SessionMgmtPkt → σ → σ
  handle_session_disconnect_req : SessionMgmtPkt → σ → σ
  handle_session_disconnect_resp : SessionMgmtPkt → σ → σ

/-- The switch on pkt_type inside the drain: each kind goes to exactly one
handler. -/
def dispatch_sm_pkt {σ : Type} (hs : Handlers σ) (p : SessionMgmtPkt)
    (s : σ) : σ :=
  match p.pkt_type with
  | .kConnectReq => hs.handle_session_connect_req p s
  | .kConnectResp => hs.handle_session_connect_resp p s
  | .kDisconnectReq => hs.handle_session_disconnect_req p s
  | .kDisconnectResp => hs.handle_session_disconnect_resp p s

/-- The identity-spoofing guard of the drain: the self-reported requester
identity of a packet (client block of a request, server block of a
response) equals the identity of this endpoint. -/
def sm_pkt_is_self_addressed (own_hostname : String) (own_app_tid : Nat)
    (p : SessionMgmtPkt) : Bool :=
  if session_mgmt_is_pkt_type_req p.pkt_type then
    p.client.hostname == own_hostname && p.client.app_tid == own_app_tid
  else
    p.server.hostname == own_hostname && p.server.app_tid == own_app_tid

/-- Events emitted by the drain loop: a packet handed to its handler, and a
packet whose memory is released (free(sm_pkt)). -/
inductive DrainEvent
  | handled (p : SessionMgmtPkt)
  | freed (p : SessionMgmtPkt)
deriving DecidableEq, Repr

/-- The loop body of handle_session_management over the queued packets, in
queue order: assert the spoofing guard, dispatch to the handler, free the
packet. Returns the final handler state and the event trace. -/
def drain_sm_pkts {σ : Type} (own_hostname : String) (own_app_tid : Nat)
    (hs : Handlers σ) (pkts : List SessionMgmtPkt) (s : σ) :
    Except Fatal (σ × List DrainEvent) :=
  match pkts with
  | [] => .ok (s, [])
  | p :: rest =>
    if sm_pkt_is_self_addressed own_hostname own_app_tid p then
      .error (.self_addressed p)
    else
      match drain_sm_pkts own_hostname own_app_tid hs rest
          (dispatch_sm_pkt hs p s) with
      | .ok (s2, evs) =>
        .ok (s2, DrainEvent.handled p :: DrainEvent.freed p :: evs)
      | .error f => .error f

/-- handle_session_management: asserts the pending-event counter is nonzero,
drains the queued packets under the hook lock, then clears the queue and
resets the counter to zero. -/
def handle_session_management {σ : Type} (own_hostname : String)
    (own_app_tid : Nat) (hs : Handlers σ) (hook : SMHook) (s : σ) :
    Except Fatal (SMHook × σ × List DrainEvent) :=
  if hook.session_mgmt_ev_counter = 0 then
    .error (.assert_failure "session_mgmt_ev_counter > 0")
  else
    match drain_sm_pkts own_hostname own_app_tid hs
        hook.session_mgmt_pkt_list s with
    | .error f => .error f
    | .ok (s2, evs) =>
      .ok
        ({ hook with
           session_mgmt_pkt_list := []
           session_mgmt_ev_counter := 0 },
         s2, evs)

/-- An application-supplied buffer (the Buffer class lives in a header
outside the embedded translation unit; its contents are irrelevant here). -/
structure Buffer where
  buf : Nat
  size : Nat
deriving DecidableEq, Repr

/-- send_request: the body only marks its arguments unused. -/
def send_request (st : RpcState) (session : Option Nat)
    (buffer : Option Buffer) : RpcState :=
  st

/-- send_response: the body only marks its arguments unused. -/
def send_response (st : RpcState) (session : Option Nat)
    (buffer : Option Buffer) : RpcState :=
  st

/-- get_name: the display string of the endpoint. -/
def get_name (st : RpcState) : String :=
  "[" ++ st.hostname ++ ", " ++ toString st.app_tid ++ "]"

/-- If a mask and a third value share no set bit, masking any value first
leaves nothing of the third value. -/
theorem land_land_eq_zero (r m c : Nat) (h : m &&& c = 0) :
    (r &&& m) &&& c = 0 := by
  apply Nat.eq_of_testBit_eq
  intro i
  have hb : Nat.testBit (m &&& c) i = Nat.testBit 0 i := by rw [h]
  simp only [Nat.testBit_land, Nat.zero_testBit] at hb ⊢
  rw [Bool.and_assoc, hb, Bool.and_false]

/-- List.contains with a decidable-equality BEq instance agrees with list
membership. -/
theorem contains_eq_true_iff_mem {α : Type} [BEq α] [LawfulBEq α]
    (l : List α) (a : α) : (l.contains a = true) ↔ a ∈ l := by
  rw [List.contains_iff_exists_mem_beq]
  constructor
  · rintro ⟨x, hx, hbeq⟩
    rw [eq_of_beq hbeq]
    exact hx
  · intro h
    exact ⟨a, h, by simp⟩

/-- C9: for every value drawn from the private random source,
generate_start_seq returns that value masked with kStartSeqMask, so the
result has no bit outside the mask (result AND NOT mask is zero, the
complement taken within the 64-bit word) and never exceeds the mask. -/
theorem generate_start_seq_in_masked_range (rand : Nat) :
    generate_start_seq rand &&& ((2 ^ 64 - 1) ^^^ kStartSeqMask) = 0 ∧
    generate_start_seq rand ≤ kStartSeqMask := by
  refine ⟨land_land_eq_zero rand kStartSeqMask _ (by decide), ?_⟩
  exact Nat.and_le_right

/-- C10: send_request and send_response leave the endpoint state completely
unchanged — session table, hook queue and counter are all as before — for
every session and buffer argument. -/
theorem send_request_response_no_op (st : RpcState) (session : Option Nat)
    (buffer : Option Buffer) :
    send_request st session buffer = st ∧
    send_response st session buffer = st ∧
    (send_request st session buffer).session_vec = st.session_vec ∧
    (send_request st session buffer).sm_hook.session_mgmt_pkt_list =
      st.sm_hook.session_mgmt_pkt_list ∧
    (send_request st session buffer).sm_hook.session_mgmt_ev_counter =
      st.sm_hook.session_mgmt_ev_counter ∧
    (send_response st session buffer).session_vec = st.session_vec ∧
    (send_response st session buffer).sm_hook = st.sm_hook :=
  ⟨rfl, rfl, rfl, rfl, rfl, rfl, rfl⟩

/-- C2: when the constructing process is not root (uid nonzero), the
constructor throws the permission failure (a runtime_error, distinct from
the invalid_argument failures) and the event trace is empty: no allocator
or transport creation call occurs on that path. -/
theorem rpc_construct_nonroot_permission_error (cst : RpcConstants)
    (env : ConsEnv) (h : env.uid ≠ 0) :
    rpcConstruct cst env =
      (.error (.runtimeError "eRPC Rpc: You need to be root to use eRPC"),
       []) := by
  simp [rpcConstruct, h]

/-- Witness for C2 at a concrete non-root environment. -/
theorem rpc_construct_nonroot_permission_error_witness :
    rpcConstruct { kInvalidAppTid := 255, kMaxPhyPorts := 2,
                   kMaxNumaNodes := 8 }
      { uid := 1000, nexus := some { hostname := "localhost",
                                     registered := [] },
        app_tid := 1, phy_port := 0, numa_node := 0,
        init_hugepage_result := none } =
      (.error (.runtimeError "eRPC Rpc: You need to be root to use eRPC"),
       []) :=
  rpc_construct_nonroot_permission_error _ _ (by decide)

/-- C7: with root privilege, each argument violation is a distinct
invalid_argument failure raised with an empty event trace (no resource
creation): absent nexus; application-thread id equal to the reserved
invalid value or already registered; physical-port index at or above the
maximum; NUMA-node index at or above the maximum. Moreover, after a
successful construction, a second construction with the same
application-thread id against the updated directory fails with the
app_tid invalid_argument failure and an empty trace. -/
theorem rpc_construct_invalid_argument_cases (cst : RpcConstants)
    (env : ConsEnv) (hroot : env.uid = 0) :
    (env.nexus = none →
      rpcConstruct cst env =
        (.error (.invalidArgument "eRPC Rpc: Invalid nexus"), [])) ∧
    (∀ nx, env.nexus = some nx →
      env.app_tid = cst.kInvalidAppTid ∨
        nx.app_tid_exists env.app_tid = true →
      rpcConstruct cst env =
        (.error (.invalidArgument "eRPC Rpc: Invalid app_tid"), [])) ∧
    (∀ nx, env.nexus = some nx → env.app_tid ≠ cst.kInvalidAppTid →
      nx.app_tid_exists env.app_tid = false →
      cst.kMaxPhyPorts ≤ env.phy_port →
      rpcConstruct cst env =
        (.error (.invalidArgument "eRPC Rpc: Invalid physical port"),
         [])) ∧
    (∀ nx, env.nexus = some nx → env.app_tid ≠ cst.kInvalidAppTid →
      nx.app_tid_exists env.app_tid = false →
      env.phy_port < cst.kMaxPhyPorts →
      cst.kMaxNumaNodes ≤ env.numa_node →
      rpcConstruct cst env =
        (.error (.invalidArgument "eRPC Rpc: Invalid NUMA node"), [])) ∧
    (∀ st nx2 tr env2, rpcConstruct cst env = (.ok (st, nx2), tr) →
      env2.uid = 0 → env2.nexus = some nx2 →
      env2.app_tid = env.app_tid →
      rpcConstruct cst env2 =
        (.error (.invalidArgument "eRPC Rpc: Invalid app_tid"), [])) := by
  refine ⟨?_, ?_, ?_, ?_, ?_⟩
  · intro hnx
    simp [rpcConstruct, hroot, hnx]
  · intro nx hnx htid
    rcases htid with htid | htid <;> simp [rpcConstruct, hroot, hnx, htid]
  · intro nx hnx htid1 htid2 hport
    simp [rpcConstruct, hroot, hnx, htid1, htid2, hport]
  · intro nx hnx htid1 htid2 hport hnuma
    simp [rpcConstruct, hroot, hnx, htid1, htid2, Nat.not_le.mpr hport,
      hnuma]
  · intro st nx2 tr env2 hok h2root h2nx h2tid
    rw [rpcConstruct, if_neg (by simp [hroot])] at hok
    split at hok
    · exact absurd hok (by simp)
    · rename_i nx hnxe
      split at hok
      · exact absurd hok (by simp)
      · split at hok
        · exact absurd hok (by simp)
        · split at hok
          · exact absurd hok (by simp)
          · split at hok
            · exact absurd hok (by simp)
            · injection hok with hfst hsnd
              injection hfst with hpair
              injection hpair with hS hreg
              have hex : nx2.app_tid_exists env2.app_tid = true := by
                rw [← hreg, Nexus.app_tid_exists,
                  contains_eq_true_iff_mem]
                simp [Nexus.register_hook, h2tid]
              simp [rpcConstruct, h2root, h2nx, hex]

/-- Common concrete constants for the example runs: the reserved invalid
application-thread id, two physical ports, eight NUMA nodes. -/
def cst0 : RpcConstants :=
  { kInvalidAppTid := 255, kMaxPhyPorts := 2, kMaxNumaNodes := 8 }

/-- A directory with no registered endpoint. -/
def nxEmpty : Nexus :=
  { hostname := "localhost", registered := [] }

/-- Witness for C7: each concrete violating environment produces its
invalid_argument failure with an empty trace, and a duplicate
application-thread id on the updated directory is rejected. -/
theorem rpc_construct_invalid_argument_cases_witness :
    rpcConstruct cst0
        { uid := 0, nexus := none, app_tid := 1, phy_port := 0,
          numa_node := 0, init_hugepage_result := none } =
      (.error (.invalidArgument "eRPC Rpc: Invalid nexus"), []) ∧
    rpcConstruct cst0
        { uid := 0, nexus := some nxEmpty, app_tid := 255, phy_port := 0,
          numa_node := 0, init_hugepage_result := none } =
      (.error (.invalidArgument "eRPC Rpc: Invalid app_tid"), []) ∧
    rpcConstruct cst0
        { uid := 0, nexus := some nxEmpty, app_tid := 1, phy_port := 5,
          numa_node := 0, init_hugepage_result := none } =
      (.error (.invalidArgument "eRPC Rpc: Invalid physical port"), []) ∧
    rpcConstruct cst0
        { uid := 0, nexus := some nxEmpty, app_tid := 1, phy_port := 0,
          numa_node := 99, init_hugepage_result := none } =
      (.error (.invalidArgument "eRPC Rpc: Invalid NUMA node"), []) ∧
    rpcConstruct cst0
        { uid := 0, nexus := some (nxEmpty.register_hook 1), app_tid := 1,
          phy_port := 0, numa_node := 0, init_hugepage_result := none } =
      (.error (.invalidArgument "eRPC Rpc: Invalid app_tid"), []) :=
  ⟨(rpc_construct_invalid_argument_cases cst0 _ rfl).1 rfl,
   (rpc_construct_invalid_argument_cases cst0 _ rfl).2.1 nxEmpty rfl
     (Or.inl rfl),
   (rpc_construct_invalid_argument_cases cst0 _ rfl).2.2.1 nxEmpty rfl
     (by decide) rfl (by decide),
   (rpc_construct_invalid_argument_cases cst0 _ rfl).2.2.2.1 nxEmpty rfl
     (by decide) rfl (by decide) (by decide),
   (rpc_construct_invalid_argument_cases cst0
       { uid := 0, nexus := some nxEmpty, app_tid := 1, phy_port := 0,
         numa_node := 0, init_hugepage_result := none }
       rfl).2.2.2.2 _ _ _ _ rfl rfl rfl rfl⟩

/-- Counterexample for C1 as stated: at a concrete environment where the
transport post-allocator initialization step fails, the failure is
propagated, but the trace created a transport it never destroys — the
construction path is not free of partial resource leaks. -/
theorem rpc_construct_unwind_counterexample :
    (rpcConstruct cst0
        { uid := 0, nexus := some nxEmpty, app_tid := 1, phy_port := 0,
          numa_node := 0,
          init_hugepage_result := some "hugepage init failed" }).1 =
      .error (.runtimeError "hugepage init failed") ∧
    (rpcConstruct cst0
        { uid := 0, nexus := some nxEmpty, app_tid := 1, phy_port := 0,
          numa_node := 0,
          init_hugepage_result := some "hugepage init failed" }).2.count
        ConsEvent.createTransport = 1 ∧
    (rpcConstruct cst0
        { uid := 0, nexus := some nxEmpty, app_tid := 1, phy_port := 0,
          numa_node := 0,
          init_hugepage_result := some "hugepage init failed" }).2.count
        ConsEvent.destroyTransport = 0 ∧
    ¬ consTraceBalanced
        (rpcConstruct cst0
            { uid := 0, nexus := some nxEmpty, app_tid := 1, phy_port := 0,
              numa_node := 0,
              init_hugepage_result := some "hugepage init failed" }).2 :=
  ⟨rfl, by decide, by decide,
   by simp only [consTraceBalanced]; decide⟩

/-- C1 (amended): if the validation checks pass and the transport
post-allocator initialization step fails, the constructor destroys the
allocator (which was created after the transport) and propagates that very
failure; the partially-initialized transport object, however, is created
and never destroyed on this path. -/
theorem rpc_construct_unwind_on_init_failure (cst : RpcConstants)
    (env : ConsEnv) (nx : Nexus) (msg : String) (hroot : env.uid = 0)
    (hnx : env.nexus = some nx) (htid1 : env.app_tid ≠ cst.kInvalidAppTid)
    (htid2 : nx.app_tid_exists env.app_tid = false)
    (hport : env.phy_port < cst.kMaxPhyPorts)
    (hnuma : env.numa_node < cst.kMaxNumaNodes)
    (hinit : env.init_hugepage_result = some msg) :
    rpcConstruct cst env =
      (.error (.runtimeError msg),
       [ConsEvent.createTransport, ConsEvent.createAlloc,
        ConsEvent.destroyAlloc]) := by
  simp [rpcConstruct, hroot, hnx, htid1, htid2, Nat.not_le.mpr hport,
    Nat.not_le.mpr hnuma, hinit]

/-- Witness for the amended C1 at a concrete failing environment. -/
theorem rpc_construct_unwind_on_init_failure_witness :
    rpcConstruct cst0
        { uid := 0, nexus := some nxEmpty, app_tid := 1, phy_port := 0,
          numa_node := 0,
          init_hugepage_result := some "hugepage init failed" } =
      (.error (.runtimeError "hugepage init failed"),
       [ConsEvent.createTransport, ConsEvent.createAlloc,
        ConsEvent.destroyAlloc]) :=
  rpc_construct_unwind_on_init_failure cst0 _ nxEmpty _ rfl rfl
    (by decide) rfl (by decide) (by decide) rfl

/-- C8: is_session_ptr_client holds exactly when the reference is present,
occupies a slot of this endpoint session table, and the session role is
kClient; is_session_ptr_server is the same with role kServer. In
particular both are false for an absent reference, false for a reference
occupying no slot, and false on a role mismatch. -/
theorem is_session_ptr_characterization (st : RpcState)
    (session : Option Nat) :
    (is_session_ptr_client st session = true ↔
      ∃ r, session = some r ∧ (some r) ∈ st.session_vec ∧
        (st.heap r).role = Role.kClient) ∧
    (is_session_ptr_server st session = true ↔
      ∃ r, session = some r ∧ (some r) ∈ st.session_vec ∧
        (st.heap r).role = Role.kServer) := by
  cases session with
  | none => simp [is_session_ptr_client, is_session_ptr_server]
  | some r =>
    have hc : (st.session_vec.contains (some r) = true) ↔
        (some r) ∈ st.session_vec := contains_eq_true_iff_mem _ _
    constructor
    · simp only [is_session_ptr_client, hc]
      by_cases hmem : (some r) ∈ st.session_vec <;>
        by_cases hrole : (st.heap r).role = Role.kClient <;>
        simp [hmem, hrole]
    · simp only [is_session_ptr_server, hc]
      by_cases hmem : (some r) ∈ st.session_vec <;>
        by_cases hrole : (st.heap r).role = Role.kServer <;>
        simp [hmem, hrole]

/-- A drain over packets none of which is self-addressed succeeds: the
handlers run by fold in queue order, and the trace handles then frees each
packet in queue order. -/
theorem drain_sm_pkts_ok {σ : Type} (oh : String) (ot : Nat)
    (hs : Handlers σ) (pkts : List SessionMgmtPkt) (s : σ)
    (h : ∀ p ∈ pkts, sm_pkt_is_self_addressed oh ot p = false) :
    drain_sm_pkts oh ot hs pkts s =
      .ok (pkts.foldl (fun t p => dispatch_sm_pkt hs p t) s,
        (pkts.map
          (fun p => [DrainEvent.handled p, DrainEvent.freed p])).flatten) := by
  induction pkts generalizing s with
  | nil => rfl
  | cons p rest ih =>
    have hp : sm_pkt_is_self_addressed oh ot p = false := h p (by simp)
    have ih2 := ih (dispatch_sm_pkt hs p s)
      (fun q hq => h q (List.mem_cons_of_mem _ hq))
    simp [drain_sm_pkts, hp, ih2]

/-- C4: the session-management drain is fatal when the pending-event
counter is zero (precondition violation); when the counter is nonzero and
no queued packet is self-addressed, it processes the packets in strict
FIFO order (the handlers fold over the queue in order, and the trace
handles then frees each packet in queue order), and finishes with the
pending queue empty and the pending-event counter equal to zero, for every
queue length. -/
theorem handle_session_management_drains {σ : Type} (oh : String)
    (ot : Nat) (hs : Handlers σ) (hook : SMHook) (s : σ) :
    (hook.session_mgmt_ev_counter = 0 →
      handle_session_management oh ot hs hook s =
        .error (.assert_failure "session_mgmt_ev_counter > 0")) ∧
    (0 < hook.session_mgmt_ev_counter →
      (∀ p ∈ hook.session_mgmt_pkt_list,
        sm_pkt_is_self_addressed oh ot p = false) →
      handle_session_management oh ot hs hook s =
        .ok ({ hook with
               session_mgmt_pkt_list := []
               session_mgmt_ev_counter := 0 },
          hook.session_mgmt_pkt_list.foldl
            (fun t p => dispatch_sm_pkt hs p t) s,
          (hook.session_mgmt_pkt_list.map
            (fun p => [DrainEvent.handled p,
                       DrainEvent.freed p])).flatten)) := by
  constructor
  · intro h0
    simp [handle_session_management, h0]
  · intro hpos hguard
    rw [handle_session_management, if_neg (by omega),
      drain_sm_pkts_ok oh ot hs _ s hguard]

/-- Handlers over a numeric state used by the concrete runs: each handler
appends its own digit, so the final value records the dispatch order. -/
def hsW : Handlers Nat :=
  { handle_session_connect_req := fun _ n => n * 10 + 1
    handle_session_connect_resp := fun _ n => n * 10 + 2
    handle_session_disconnect_req := fun _ n => n * 10 + 3
    handle_session_disconnect_resp := fun _ n => n * 10 + 4 }

/-- A connect request from a remote client identity. -/
def p1W : SessionMgmtPkt :=
  { pkt_type := .kConnectReq
    client := { hostname := "otherhost", app_tid := 7 }
    server := { hostname := "localhost", app_tid := 3 } }

/-- A disconnect response from a remote server identity (its client block
equals the local identity, which a response may legitimately carry). -/
def p2W : SessionMgmtPkt :=
  { pkt_type := .kDisconnectResp
    client := { hostname := "localhost", app_tid := 3 }
    server := { hostname := "remotehost", app_tid := 9 } }

/-- Witness for C4: a two-packet queue with counter two drains in FIFO
order (the recorded dispatch order is connect request then disconnect
response), frees each packet after handling it, and ends with an empty
queue and a zero counter. -/
theorem handle_session_management_drains_witness :
    handle_session_management "localhost" 3 hsW
        { app_tid := 3, session_mgmt_ev_counter := 2,
          session_mgmt_pkt_list := [p1W, p2W] } 0 =
      .ok ({ app_tid := 3, session_mgmt_ev_counter := 0,
             session_mgmt_pkt_list := [] },
        14,
        [DrainEvent.handled p1W, DrainEvent.freed p1W,
         DrainEvent.handled p2W, DrainEvent.freed p2W]) := by
  have h := (handle_session_management_drains "localhost" 3 hsW
      { app_tid := 3, session_mgmt_ev_counter := 2,
        session_mgmt_pkt_list := [p1W, p2W] } 0).2
    (by decide) (by decide)
  simpa [hsW, dispatch_sm_pkt, p1W, p2W] using h

/-- The drain result is a fatal self-addressed invariant violation whose
offending packet really is self-addressed. -/
def result_is_self_addressed_fatal {σ : Type} (oh : String) (ot : Nat)
    (r : Except Fatal (SMHook × σ × List DrainEvent)) : Bool :=
  match r with
  | .error (.self_addressed q) => sm_pkt_is_self_addressed oh ot q
  | _ => false

/-- A drain over a queue holding some self-addressed packet stops with the
fatal self-addressed error for a self-addressed packet. -/
theorem drain_sm_pkts_spoofed {σ : Type} (oh : String) (ot : Nat)
    (hs : Handlers σ) (pkts : List SessionMgmtPkt) (s : σ)
    (h : ∃ p ∈ pkts, sm_pkt_is_self_addressed oh ot p = true) :
    ∃ q, drain_sm_pkts oh ot hs pkts s = .error (.self_addressed q) ∧
      sm_pkt_is_self_addressed oh ot q = true := by
  induction pkts generalizing s with
  | nil => simp at h
  | cons p rest ih =>
    by_cases hp : sm_pkt_is_self_addressed oh ot p = true
    · exact ⟨p, by simp [drain_sm_pkts, hp], hp⟩
    · obtain ⟨q, hq, hqs⟩ := h
      rcases List.mem_cons.mp hq with rfl | hq2
      · exact absurd hqs hp
      · obtain ⟨q2, hq2e, hq2s⟩ :=
          ih (dispatch_sm_pkt hs p s) ⟨q, hq2, hqs⟩
        refine ⟨q2, ?_, hq2s⟩
        simp [drain_sm_pkts, hp, hq2e]

/-- C5: when the pending-event counter is nonzero and some queued packet
reports the identity of this endpoint as its own requester identity
(client block for a request, server block for a response), the drain ends
in the fatal self-addressed invariant violation — it neither completes
normally nor silently drops the packet. -/
theorem handle_session_management_self_addressed_fatal {σ : Type}
    (oh : String) (ot : Nat) (hs : Handlers σ) (hook : SMHook) (s : σ)
    (hc : hook.session_mgmt_ev_counter ≠ 0) (p : SessionMgmtPkt)
    (hp : p ∈ hook.session_mgmt_pkt_list)
    (hspoof : sm_pkt_is_self_addressed oh ot p = true) :
    result_is_self_addressed_fatal oh ot
      (handle_session_management oh ot hs hook s) = true := by
  obtain ⟨q, hq, hqs⟩ :=
    drain_sm_pkts_spoofed oh ot hs hook.session_mgmt_pkt_list s
      ⟨p, hp, hspoof⟩
  rw [handle_session_management, if_neg hc, hq]
  simpa [result_is_self_addressed_fatal] using hqs

/-- A connect request whose client block is the identity of the endpoint
itself. -/
def pSpoof : SessionMgmtPkt :=
  { pkt_type := .kConnectReq
    client := { hostname := "localhost", app_tid := 3 }
    server := { hostname := "otherhost", app_tid := 7 } }

/-- Witness for C5: a queue holding a packet whose self-reported client
identity equals the endpoint identity makes the drain fatal. -/
theorem handle_session_management_self_addressed_fatal_witness :
    result_is_self_addressed_fatal "localhost" 3
      (handle_session_management "localhost" 3 hsW
        { app_tid := 3, session_mgmt_ev_counter := 1,
          session_mgmt_pkt_list := [p1W, pSpoof] } 0) = true :=
  handle_session_management_self_addressed_fatal "localhost" 3 hsW
    { app_tid := 3, session_mgmt_ev_counter := 1,
      session_mgmt_pkt_list := [p1W, pSpoof] } 0
    (by decide) pSpoof (by simp) (by decide)

/-- C6 (part 1): burying a client-role session that is in flight hits a
fatal assert; (part 2): burying a client-role session that is not in
flight and whose reference occupies exactly the table slot indexed by its
client-block session number succeeds, empties that slot, and afterwards
is_session_ptr_client on the same reference returns false. -/
theorem bury_session_client_cases (st : RpcState) (r : Nat)
    (hrole : (st.heap r).role = Role.kClient) :
    ((st.heap r).in_flight = true →
      (bury_session st (some r)).isOk = false) ∧
    ((st.heap r).in_flight = false →
      ∀ n, n = (st.heap r).client.session_num →
      st.session_vec[n]? = some (some r) →
      (∀ i, st.session_vec[i]? = some (some r) → i = n) →
      bury_session st (some r) =
        .ok { st with session_vec := st.session_vec.set n none } ∧
      (st.session_vec.set n none)[n]? = some none ∧
      is_session_ptr_client
        { st with session_vec := st.session_vec.set n none }
        (some r) = false) := by
  constructor
  · intro hin
    simp only [bury_session, hrole]
    by_cases hc : is_session_ptr_client st (some r) = true
    · simp [hc, is_in_flight, hin, Except.isOk, Except.toBool]
    · simp [hc, Except.isOk, Except.toBool]
  · intro hin n hn hocc huniq
    subst hn
    have hnlen : (st.heap r).client.session_num < st.session_vec.length := by
      rcases List.getElem?_eq_some_iff.mp hocc with ⟨h, -⟩
      exact h
    have hmem : (some r) ∈ st.session_vec :=
      List.mem_iff_getElem?.mpr ⟨_, hocc⟩
    have hcontains : st.session_vec.contains (some r) = true :=
      (contains_eq_true_iff_mem _ _).mpr hmem
    have hptr : is_session_ptr_client st (some r) = true := by
      simp [is_session_ptr_client, hcontains, hrole, hmem]
    have hnotmem :
        (some r) ∉ st.session_vec.set (st.heap r).client.session_num none := by
      intro hmem2
      obtain ⟨i, hi⟩ := List.mem_iff_getElem?.mp hmem2
      by_cases hin2 : i = (st.heap r).client.session_num
      · subst hin2
        rw [List.getElem?_set_self hnlen] at hi
        exact absurd hi (by simp)
      · rw [List.getElem?_set_ne (fun h => hin2 h.symm)] at hi
        exact hin2 (huniq i hi)
    have hcontains2 :
        (st.session_vec.set (st.heap r).client.session_num none).contains
          (some r) = false := by
      cases hcc : (st.session_vec.set (st.heap r).client.session_num
          none).contains (some r) with
      | false => rfl
      | true => exact absurd ((contains_eq_true_iff_mem _ _).mp hcc) hnotmem
    refine ⟨?_, List.getElem?_set_self hnlen, ?_⟩
    · simp only [bury_session, hrole]
      rw [if_neg (by simp [hptr]), if_neg (by simp [is_in_flight, hin]),
        if_pos hnlen]
    · simp [is_session_ptr_client, hcontains2, hnotmem]

/-- A client-role session for slot zero of its endpoint, with an
unacknowledged outstanding request. -/
def sessInFlight : Session :=
  { role := Role.kClient
    client := { hostname := "remotehost", app_tid := 5, session_num := 0 }
    server := { hostname := "", app_tid := 0, session_num := 0 }
    in_flight := true }

/-- The same session with no outstanding request. -/
def sessIdle : Session :=
  { sessInFlight with in_flight := false }

/-- An endpoint whose table slot zero holds the in-flight session. -/
def stInFlight : RpcState :=
  { hostname := "localhost", app_tid := 3, session_vec := [some 0],
    heap := fun _ => sessInFlight,
    sm_hook := { app_tid := 3, session_mgmt_ev_counter := 0,
                 session_mgmt_pkt_list := [] } }

/-- An endpoint whose table slot zero holds the idle session. -/
def stIdle : RpcState :=
  { stInFlight with heap := fun _ => sessIdle }

/-- Witness for C6: burying the in-flight client session is fatal; burying
the idle one empties slot zero and the reference no longer tests as a
client session pointer. -/
theorem bury_session_client_cases_witness :
    (bury_session stInFlight (some 0)).isOk = false ∧
    bury_session stIdle (some 0) =
      .ok { stIdle with session_vec := [none] } ∧
    is_session_ptr_client { stIdle with session_vec := [none] }
      (some 0) = false := by
  have ha := (bury_session_client_cases stInFlight 0 rfl).1 rfl
  have hb := (bury_session_client_cases stIdle 0 rfl).2 rfl 0 rfl rfl
    (fun i hi => by
      cases i with
      | zero => rfl
      | succ k => simp [stIdle, stInFlight] at hi)
  exact ⟨ha, by simpa using hb.1, by simpa using hb.2.2⟩

/-- An endpoint state at destruction time with one live session in its
table (the failing input for C3). -/
def stDtor : RpcState :=
  { hostname := "localhost", app_tid := 3, session_vec := [some 0],
    heap := fun _ => sessIdle,
    sm_hook := { app_tid := 3, session_mgmt_ev_counter := 0,
                 session_mgmt_pkt_list := [] } }

/-- C3, evaluated at an endpoint holding one live session: the destructor
destroys the allocator first and the transport second, but its loop over
the non-empty session-table slots performs no release at all (the body is
_unused), so its trace differs from the trace the spec describes, which
frees the occupied slot after the transport is destroyed. -/
theorem rpc_destruct_behavior :
    rpcDestruct stDtor =
      [DtorEvent.destroyAlloc, DtorEvent.destroyTransport] ∧
    rpcDestructSpec stDtor =
      [DtorEvent.destroyAlloc, DtorEvent.destroyTransport,
       DtorEvent.freeSession 0] ∧
    rpcDestruct stDtor ≠ rpcDestructSpec stDtor :=
  ⟨rfl, rfl, by decide⟩

end ERpc
